import Mathlib

/-!
Verification model of the `framework4cpp` shared-buffer framework.

The definitions below are a shallow embedding of the C++ sources:

* `src/src/core/GlobalBuffer.cpp` together with
  `src/include/framework4cpp/GlobalBuffer.h` (the bounded blocking queue
  `global_buffer::GlobalBuffer` with its optional memory-mapped slot ring);
* the `CsvWriter` consumer (`formatRecord` / `escape`);
* the `StreamingSession` producer lifecycle
  (`start` / `stop` / `threadMain`).

Machine integers are modelled as `Nat`; the single place where the C++
code truncates a value (`static_cast<std::uint32_t>(payloadSize)` in
`GlobalBuffer::push`) is modelled with an explicit `% 2 ^ 32`.  The mapped
region (`mappedView_`) is modelled as a `List Nat` of bytes, and the two
`memcpy` calls of a slot write become `writeBytes`.  The 4-byte length
prefix is stored in the platform's native byte order; the model fixes
little-endian, and no theorem below depends on which order was chosen.

Blocking calls are modelled as guarded atomic transitions: a call that
would still be waiting on its condition variable is a `blocked` result
that leaves the state unchanged (the C++ `wait` returns only once the
predicate holds, and the buffer mutex makes each completed call atomic).
Thrown C++ exceptions are modelled as explicit error results.
-/


/-- Bytes of a memory region, one `Nat` (value `< 256`) per byte. -/
abbrev Bytes := List Nat

/-- `memcpy(m + off, data, data.length)`: overwrite the bytes of `m`
starting at `off` with `data`. -/
def writeBytes (m : Bytes) (off : Nat) (data : Bytes) : Bytes :=
  m.take off ++ data ++ m.drop (off + data.length)

/-- Read `n` bytes of `m` starting at offset `off`. -/
def readBytes (m : Bytes) (off n : Nat) : Bytes :=
  (m.drop off).take n

/-- The four bytes of a 32-bit unsigned value (little-endian). -/
def encodeU32 (v : Nat) : Bytes :=
  [v % 256, v / 256 % 256, v / 65536 % 256, v / 16777216 % 256]

/-- Decode four bytes back into the 32-bit value they store. -/
def decodeU32 : Bytes → Nat
  | [b0, b1, b2, b3] => b0 + b1 * 256 + b2 * 65536 + b3 * 16777216
  | _ => 0

/-- Field-name set carried by every record (`global_buffer::FieldNames`). -/
structure FieldNames where
  source : String
  timestamp : String
  payload : String
deriving DecidableEq, Repr

/-- Defaults of `FieldNames` (member initializers in `GlobalBuffer.h`). -/
def defaultFieldNames : FieldNames :=
  { source := "source", timestamp := "timestamp", payload := "payload" }

/-- One record (`global_buffer::BufferItem`).  The capture instant is an
opaque `Nat`; payload bytes are `Nat`s below 256. -/
structure BufferItem where
  source : String
  timestamp : Nat
  payload : Bytes
  fieldNames : FieldNames := defaultFieldNames
deriving DecidableEq, Repr

/-- Construction options (`global_buffer::Options`), with the default
member initializers of `GlobalBuffer.h`. -/
structure Options where
  capacity : Nat := 1024
  memoryMapped : Bool := false
  backingFile : String := "global_buffer.mmap"
  maxPayloadSize : Nat := 4096
  fieldNames : FieldNames := defaultFieldNames
deriving DecidableEq, Repr

/-- `normalizeOptions` of `GlobalBuffer.cpp`: every zero / empty option is
silently replaced by the corresponding `Options` default. -/
def normalizeOptions (input : Options) : Options :=
  let r0 := input
  let r1 := if r0.capacity = 0 then { r0 with capacity := 1024 } else r0
  let r2 := if r1.maxPayloadSize = 0 then { r1 with maxPayloadSize := 4096 } else r1
  let r3 := if r2.memoryMapped ∧ r2.backingFile = "" then
      { r2 with backingFile := "global_buffer.mmap" } else r2
  let r4 := if r3.fieldNames.source = "" then
      { r3 with fieldNames := { r3.fieldNames with source := "source" } } else r3
  let r5 := if r4.fieldNames.timestamp = "" then
      { r4 with fieldNames := { r4.fieldNames with timestamp := "timestamp" } } else r4
  if r5.fieldNames.payload = "" then
    { r5 with fieldNames := { r5.fieldNames with payload := "payload" } } else r5

/-- The immutable configuration part of a constructed `GlobalBuffer`:
`options_`, `capacity_`, `fieldNames_`, `slotSize_`, `mappedSize_`. -/
structure GlobalBuffer where
  options : Options
  capacity : Nat
  fieldNames : FieldNames
  slotSize : Nat
  mappedSize : Nat
deriving DecidableEq, Repr

/-- The `GlobalBuffer(const Options &)` constructor.  A thrown
`std::invalid_argument` is an `Except.error` carrying the message.  The
platform mapping calls (`open` / `ftruncate` / `mmap`) are outside the
model; `initializeMapping` is represented by the fresh zero-filled region
installed by `initState` below. -/
def GlobalBuffer.construct (input : Options) : Except String GlobalBuffer :=
  let o := normalizeOptions input
  if o.capacity = 0 then
    Except.error "GlobalBuffer capacity must be greater than zero"
  else if o.memoryMapped then
    if o.backingFile = "" then
      Except.error "Backing file must be provided when memory mapping is enabled"
    else if o.maxPayloadSize = 0 then
      Except.error "Max payload size must be greater than zero when memory mapping is enabled"
    else
      Except.ok { options := o, capacity := o.capacity, fieldNames := o.fieldNames,
                  slotSize := 4 + o.maxPayloadSize,
                  mappedSize := (4 + o.maxPayloadSize) * o.capacity }
  else
    Except.ok { options := o, capacity := o.capacity, fieldNames := o.fieldNames,
                slotSize := 0, mappedSize := 0 }

/-- A queue entry (`GlobalBuffer::QueueEntry`).  `slotIndex = none` models
`kInvalidSlot`. -/
structure QueueEntry where
  item : BufferItem
  payloadSize : Nat
  slotIndex : Option Nat
deriving DecidableEq, Repr

/-- The mutable members of a `GlobalBuffer`: `queue_`, `shutdown_`,
`writeIndex_`, and the mapped region (`none` models a null
`mappedView_`). -/
structure BufferState where
  queue : List QueueEntry
  shutdown : Bool
  writeIndex : Nat
  mapped : Option Bytes
deriving DecidableEq, Repr

/-- State right after construction: empty queue, cursor 0, and (in
persisted mode) the freshly `ftruncate`d, hence zero-filled, mapping. -/
def initState (buf : GlobalBuffer) : BufferState :=
  { queue := [], shutdown := false, writeIndex := 0,
    mapped := if buf.options.memoryMapped then some (List.replicate buf.mappedSize 0) else none }

/-- Outcome of one completed (or still waiting) `push` call. -/
inductive PushResult where
  /-- The item was appended to the queue. -/
  | enqueued
  /-- `shutdown_` was set: the call returned without enqueuing. -/
  | droppedShutdown
  /-- The call is still waiting on `canPush_` (queue full, no shutdown). -/
  | blocked
  /-- Thrown: `Memory-mapped buffer is not initialized`. -/
  | errNotMapped
  /-- Thrown: `Payload size exceeds configured maximum ...`. -/
  | errTooLarge
deriving DecidableEq, Repr

/-- `GlobalBuffer::push`.  Follows the C++ statement order: wait for
`shutdown_ || queue_.size() < capacity_`; drop if shutdown; stamp the
buffer's field names; in persisted mode check the mapping and the payload
size, write the 4-byte length prefix (truncated to `uint32_t`) and the
payload bytes into slot `writeIndex_`, advance the cursor modulo
`capacity_`, and clear the heap copy of the payload; finally append the
entry. -/
def GlobalBuffer.push (buf : GlobalBuffer) (st : BufferState) (item : BufferItem) :
    BufferState × PushResult :=
  if ¬ (st.shutdown = true ∨ st.queue.length < buf.capacity) then (st, .blocked)
  else if st.shutdown = true then (st, .droppedShutdown)
  else
    let item2 := { item with fieldNames := buf.fieldNames }
    let payloadSize := item2.payload.length
    if buf.options.memoryMapped then
      match st.mapped with
      | none => (st, .errNotMapped)
      | some m =>
        if payloadSize > buf.options.maxPayloadSize then (st, .errTooLarge)
        else
          let slotIndex := st.writeIndex
          let off := slotIndex * buf.slotSize
          let storedSize := payloadSize % 2 ^ 32
          let m1 := writeBytes m off (encodeU32 storedSize)
          let m2 := if payloadSize > 0 then writeBytes m1 (off + 4) item2.payload else m1
          ({ st with
              mapped := some m2,
              writeIndex := (st.writeIndex + 1) % buf.capacity,
              queue := st.queue ++
                [{ item := { item2 with payload := [] },
                   payloadSize := payloadSize, slotIndex := some slotIndex }] },
           .enqueued)
    else
      ({ st with queue := st.queue ++
          [{ item := item2, payloadSize := payloadSize, slotIndex := none }] },
       .enqueued)

/-- `GlobalBuffer::materializeEntry`, with the mapped region passed
explicitly (the C++ method reads the member `mappedView_`).  `none`
models the thrown `Memory-mapped payload size mismatch detected` (and the
unreachable read through a null view). -/
def GlobalBuffer.materializeEntry (buf : GlobalBuffer) (mapped : Option Bytes)
    (entry : QueueEntry) : Option BufferItem :=
  if buf.options.memoryMapped ∧ entry.slotIndex.isSome then
    match entry.slotIndex, mapped with
    | some i, some m =>
      let off := i * buf.slotSize
      let storedSize := decodeU32 (readBytes m off 4)
      if storedSize ≠ entry.payloadSize then none
      else some { entry.item with payload := readBytes m (off + 4) entry.payloadSize }
    | _, _ => none
  else
    some entry.item

/-- Outcome of one completed (or still waiting) `pop` / `tryPop` call. -/
inductive PopResult where
  /-- A record was dequeued and returned. -/
  | item (b : BufferItem)
  /-- `std::nullopt`: nothing to return. -/
  | empty
  /-- The call is still waiting on `canPop_` (queue empty, no shutdown). -/
  | blocked
  /-- Thrown: `Memory-mapped payload size mismatch detected`. -/
  | corrupt
deriving DecidableEq, Repr

/-- `GlobalBuffer::pop`: wait for `shutdown_ || !queue_.empty()`; return
`nullopt` on an empty queue; otherwise dequeue the front entry and
materialize it (the corruption exception propagates after the dequeue). -/
def GlobalBuffer.pop (buf : GlobalBuffer) (st : BufferState) : BufferState × PopResult :=
  if ¬ (st.shutdown = true ∨ st.queue ≠ []) then (st, .blocked)
  else
    match st.queue with
    | [] => (st, .empty)
    | entry :: rest =>
      let st' := { st with queue := rest }
      match buf.materializeEntry st.mapped entry with
      | some b => (st', .item b)
      | none => (st', .corrupt)

/-- `GlobalBuffer::tryPop`: like `pop` but never waits. -/
def GlobalBuffer.tryPop (buf : GlobalBuffer) (st : BufferState) : BufferState × PopResult :=
  match st.queue with
  | [] => (st, .empty)
  | entry :: rest =>
    let st' := { st with queue := rest }
    match buf.materializeEntry st.mapped entry with
    | some b => (st', .item b)
    | none => (st', .corrupt)

/-- `GlobalBuffer::shutdown`: set the sticky flag and wake all waiters. -/
def GlobalBuffer.shutdownCall (st : BufferState) : BufferState :=
  { st with shutdown := true }

/-- One buffer API call, for describing reachable states. -/
inductive BufferOp where
  | push (item : BufferItem)
  | pop
  | tryPop
  | shutdown
deriving Repr

/-- Apply one API call to the state (the lock makes each call atomic). -/
def applyOp (buf : GlobalBuffer) (st : BufferState) : BufferOp → BufferState
  | .push item => (buf.push st item).1
  | .pop => (buf.pop st).1
  | .tryPop => (buf.tryPop st).1
  | .shutdown => GlobalBuffer.shutdownCall st

/-- The state reached after a sequence of API calls. -/
def runOps (buf : GlobalBuffer) (st : BufferState) (ops : List BufferOp) : BufferState :=
  ops.foldl (applyOp buf) st

/-- Iterate `pop` `n` times, collecting the results in call order. -/
def popN (buf : GlobalBuffer) : BufferState → Nat → BufferState × List PopResult
  | st, 0 => (st, [])
  | st, n + 1 =>
    let p := buf.pop st
    let q := popN buf p.1 n
    (q.1, p.2 :: q.2)

/-- Whether a `PopResult` carries a record. -/
def PopResult.isItem : PopResult → Bool
  | .item _ => true
  | _ => false

/-- Every queued entry can be materialized from the current mapping (in
particular, each persisted entry's stored length prefix matches its
recorded length). -/
def wellFormed (buf : GlobalBuffer) (st : BufferState) : Bool :=
  st.queue.all fun entry => (buf.materializeEntry st.mapped entry).isSome

/-- The subset of `framework4cpp::CsvSettings` that `formatRecord` reads
(defaults as in `Config.h`). -/
structure CsvSettings where
  delimiter : Char := ','
  quoteStrings : Bool := true
  includeTimestamp : Bool := true
  timestampFormat : String := "%Y-%m-%d %H:%M:%S"
deriving DecidableEq, Repr

/-- `CsvWriter::escape`: copy each character, doubling every `"`. -/
def escapeChars : List Char → List Char
  | [] => []
  | c :: rest => if c = '"' then c :: c :: escapeChars rest else c :: escapeChars rest

/-- `CsvWriter::escape` on `String`s. -/
def CsvWriter.escape (value : String) : String :=
  String.mk (escapeChars value.data)

/-- The `appendColumn` lambda's rendering of a single column value. -/
def renderColumn (s : CsvSettings) (value : String) : String :=
  if s.quoteStrings then "\"" ++ CsvWriter.escape value ++ "\"" else value

/-- One lowercase hexadecimal digit. -/
def hexDigit (n : Nat) : Char :=
  if n < 10 then Char.ofNat (48 + n) else Char.ofNat (87 + n)

/-- `std::hex << std::setw(2) << std::setfill('0')` of one payload byte
(payload bytes are `uint8_t`, hence `< 256`). -/
def hexByte (b : Nat) : String :=
  String.mk [hexDigit (b % 256 / 16), hexDigit (b % 16)]

/-- The payload column: hex byte pairs separated by single spaces. -/
def payloadHex : Bytes → String
  | [] => ""
  | [b] => hexByte b
  | b :: rest => hexByte b ++ " " ++ payloadHex rest

/-- `CsvWriter::formatRecord`.  The `std::put_time` / `localtime` call is
platform- and locale-dependent, so the timestamp column's text is
abstracted as the function argument `fmtTimestamp` applied to the
record's capture instant; everything else follows the C++ code: an
optional timestamp column, the source column, and the hex payload
column, each rendered by `appendColumn` and joined with the delimiter. -/
def CsvWriter.formatRecord (s : CsvSettings) (fmtTimestamp : Nat → String)
    (item : BufferItem) : String :=
  let cols :=
    (if s.includeTimestamp then [fmtTimestamp item.timestamp] else []) ++
    [item.source, payloadHex item.payload]
  String.intercalate (String.mk [s.delimiter]) (cols.map (renderColumn s))

/-- Observable state of one `StreamingSession` (plus process liveness). -/
structure SessionState where
  running : Bool
  joinable : Bool
  cleanupCount : Nat
  processAlive : Bool
deriving DecidableEq, Repr

/-- A fresh session in a live process: `running_{false}`, no worker yet. -/
def sessionInit : SessionState :=
  { running := false, joinable := false, cleanupCount := 0, processAlive := true }

/-- `StreamingSession::start`: compare-and-swap `running_` from false to
true; only the winning call spawns the worker thread. -/
def StreamingSession.start (st : SessionState) : SessionState :=
  if ¬ st.processAlive then st
  else if st.running then st
  else { st with running := true, joinable := true }

/-- The worker thread finishing `threadMain`.  `raised = true` means the
producer's `run()` exited by throwing (e.g. `FileSession::run` throwing
`Failed to open input file`).  The catch-all clears `running_` and
rethrows; the exception then escapes the `std::thread` entry function, so
`std::terminate` kills the process.  A normal return (including a read
loop that breaks out on a read error) just clears `running_`. -/
def StreamingSession.threadMain (st : SessionState) (raised : Bool) : SessionState :=
  if ¬ st.processAlive then st
  else if raised then { st with running := false, processAlive := false }
  else { st with running := false }

/-- `StreamingSession::stop`: clear `running_`, join the worker if it is
joinable, then call the `cleanup()` hook. -/
def StreamingSession.stop (st : SessionState) : SessionState :=
  if ¬ st.processAlive then st
  else { st with running := false, joinable := false, cleanupCount := st.cleanupCount + 1 }

/-- The combined effect of `push`'s slot write: the 4-byte truncated
length prefix followed (when non-empty) by the payload bytes. -/
def writeSlot (m : Bytes) (off : Nat) (p : Bytes) : Bytes :=
  let m1 := writeBytes m off (encodeU32 (p.length % 2 ^ 32))
  if p.length > 0 then writeBytes m1 (off + 4) p else m1

/-- The construction input of claim C4: zero capacity, persisted mode,
empty backing path, zero max payload size. -/
def zeroOptions : Options :=
  { capacity := 0, memoryMapped := true, backingFile := "", maxPayloadSize := 0,
    fieldNames := defaultFieldNames }

/-- The CSV settings of claim C9: delimiter `,`, quoting on, timestamps
on. -/
def c9Settings : CsvSettings :=
  { delimiter := ',', quoteStrings := true, includeTimestamp := true,
    timestampFormat := "%Y-%m-%d" }

/-- A sample record used by concrete witnesses. -/
def sampleItem : BufferItem :=
  { source := "dev0", timestamp := 7, payload := [1, 2], fieldNames := defaultFieldNames }

/-- Non-persisted construction input used by concrete witnesses. -/
def plainOptions : Options :=
  { capacity := 2, memoryMapped := false, backingFile := "", maxPayloadSize := 16,
    fieldNames := defaultFieldNames }

/-- The buffer built from `plainOptions`. -/
def plainBuffer : GlobalBuffer :=
  { options := plainOptions, capacity := 2, fieldNames := defaultFieldNames,
    slotSize := 0, mappedSize := 0 }

/-- A state with two plain (non-persisted) entries queued. -/
def plainState : BufferState :=
  { queue := [ { item := sampleItem, payloadSize := 2, slotIndex := none },
               { item := sampleItem, payloadSize := 2, slotIndex := none } ],
    shutdown := false, writeIndex := 0, mapped := none }

/-- Persisted construction input used by concrete witnesses. -/
def mappedOptions : Options :=
  { capacity := 2, memoryMapped := true, backingFile := "buf.mmap", maxPayloadSize := 4,
    fieldNames := defaultFieldNames }

/-- The buffer built from `mappedOptions`: slot size 8, region size 16. -/
def mappedBuffer : GlobalBuffer :=
  { options := mappedOptions, capacity := 2, fieldNames := defaultFieldNames,
    slotSize := 8, mappedSize := 16 }

/-- An oversized record for `mappedBuffer` (5 bytes against maximum 4). -/
def oversizedItem : BufferItem :=
  { source := "dev0", timestamp := 7, payload := [1, 2, 3, 4, 5],
    fieldNames := defaultFieldNames }

/-- A persisted-mode state whose mapping is gone (null `mappedView_`). -/
def unmappedState : BufferState :=
  { queue := [], shutdown := false, writeIndex := 0, mapped := none }

/-- A slot region whose stored length prefix (5) disagrees with the
recorded entry length (3). -/
def corruptRegion : Bytes := [5, 0, 0, 0, 9, 9, 9, 9, 0, 0, 0, 0, 0, 0, 0, 0]

/-- A queue entry recording length 3 in slot 0. -/
def corruptEntry : QueueEntry :=
  { item := { source := "dev0", timestamp := 7, payload := [],
              fieldNames := defaultFieldNames },
    payloadSize := 3, slotIndex := some 0 }

/-- A persisted-mode state holding `corruptEntry` over `corruptRegion`. -/
def corruptState : BufferState :=
  { queue := [corruptEntry], shutdown := false, writeIndex := 1,
    mapped := some corruptRegion }

/-- Persisted-mode state with the write cursor already advanced to slot 1
(as after prior wrapped pushes), queue idle. -/
def wrappedState : BufferState :=
  { queue := [], shutdown := false, writeIndex := 1,
    mapped := some (List.replicate 16 0) }

/-- The C3 boundary configuration: persisted mode with a maximum payload
size of exactly 2^32 bytes. -/
def hugeOptions : Options :=
  { capacity := 1, memoryMapped := true, backingFile := "ring.mmap",
    maxPayloadSize := 4294967296, fieldNames := defaultFieldNames }

/-- The buffer built from `hugeOptions`. -/
def hugeBuffer : GlobalBuffer :=
  { options := hugeOptions, capacity := 1, fieldNames := defaultFieldNames,
    slotSize := 4 + 4294967296, mappedSize := (4 + 4294967296) * 1 }

/-- A record whose payload has exactly 2^32 bytes — accepted by
`hugeOptions` (size ≤ maxPayloadSize). -/
def hugeItem : BufferItem :=
  { source := "dev0", timestamp := 0, payload := List.replicate 4294967296 0,
    fieldNames := defaultFieldNames }

/-- The freshly mapped region of `hugeBuffer`. -/
def hugeRegion : Bytes := List.replicate 4294967300 0

/-!  ## Lemmas and claim theorems  -/

theorem writeBytes_length (m data : Bytes) (off : Nat) (h : off + data.length ≤ m.length) :
    (writeBytes m off data).length = m.length := by
  simp [writeBytes]
  omega

theorem readBytes_writeBytes_left (m data : Bytes) (off k : Nat)
    (hoff : off ≤ m.length) (hk : k ≤ data.length) :
    readBytes (writeBytes m off data) off k = data.take k := by
  have h1 : (m.take off).length = off := by simp; omega
  rw [writeBytes, readBytes, List.append_assoc, List.drop_left' h1,
    List.take_append_eq_append_take]
  simp [Nat.sub_eq_zero_of_le hk]

theorem readBytes_writeBytes_before (m d : Bytes) (off1 n off2 : Nat)
    (h : off1 + n ≤ off2) (hm : off1 + n ≤ m.length) :
    readBytes (writeBytes m off2 d) off1 n = readBytes m off1 n := by
  rw [writeBytes, readBytes, readBytes, List.append_assoc,
    List.drop_append_eq_append_drop, List.take_append_eq_append_take]
  have h2 : n - ((m.take off2).drop off1).length = 0 := by
    simp [List.length_take, List.length_drop]
    omega
  rw [h2]
  simp only [List.take_zero, List.append_nil]
  rw [List.drop_take, List.take_take]
  congr 1
  omega

theorem encodeU32_length (v : Nat) : (encodeU32 v).length = 4 := rfl

theorem decodeU32_encodeU32 (v : Nat) : decodeU32 (encodeU32 v) = v % 2 ^ 32 := by
  simp [encodeU32, decodeU32]
  omega

theorem writeSlot_length (m p : Bytes) (off : Nat) (h : off + 4 + p.length ≤ m.length) :
    (writeSlot m off p).length = m.length := by
  have h1 : (writeBytes m off (encodeU32 (p.length % 2 ^ 32))).length = m.length :=
    writeBytes_length m _ off (by rw [encodeU32_length]; omega)
  unfold writeSlot
  split
  · rw [writeBytes_length _ _ _ (by omega), h1]
  · exact h1

theorem readSlot_len (m p : Bytes) (off : Nat) (h : off + 4 + p.length ≤ m.length) :
    readBytes (writeSlot m off p) off 4 = encodeU32 (p.length % 2 ^ 32) := by
  have h1 : (writeBytes m off (encodeU32 (p.length % 2 ^ 32))).length = m.length :=
    writeBytes_length m _ off (by rw [encodeU32_length]; omega)
  have h2 : readBytes (writeBytes m off (encodeU32 (p.length % 2 ^ 32))) off 4 =
      encodeU32 (p.length % 2 ^ 32) := by
    have := readBytes_writeBytes_left m (encodeU32 (p.length % 2 ^ 32)) off 4
      (by omega) (by rw [encodeU32_length])
    rw [this, List.take_of_length_le (by rw [encodeU32_length])]
  unfold writeSlot
  split
  · rw [readBytes_writeBytes_before _ _ _ _ _ (by omega) (by omega), h2]
  · exact h2

theorem readSlot_payload (m p : Bytes) (off : Nat) (h : off + 4 + p.length ≤ m.length) :
    readBytes (writeSlot m off p) (off + 4) p.length = p := by
  have h1 : (writeBytes m off (encodeU32 (p.length % 2 ^ 32))).length = m.length :=
    writeBytes_length m _ off (by rw [encodeU32_length]; omega)
  unfold writeSlot
  split
  · rw [readBytes_writeBytes_left _ _ _ _ (by omega) (by omega), List.take_length]
  · next hp =>
    have : p = [] := List.length_eq_zero.mp (by omega)
    subst this
    simp [readBytes]

theorem push_shutdown_eq (buf : GlobalBuffer) (st : BufferState) (item : BufferItem)
    (hsd : st.shutdown = true) :
    buf.push st item = (st, .droppedShutdown) := by
  simp [GlobalBuffer.push, hsd]

theorem push_mapped_eq (buf : GlobalBuffer) (st : BufferState) (item : BufferItem) (m : Bytes)
    (hmm : buf.options.memoryMapped = true) (hm : st.mapped = some m)
    (hsd : st.shutdown = false) (hroom : st.queue.length < buf.capacity)
    (hfit : item.payload.length ≤ buf.options.maxPayloadSize) :
    buf.push st item =
      ({ st with
          mapped := some (writeSlot m (st.writeIndex * buf.slotSize) item.payload),
          writeIndex := (st.writeIndex + 1) % buf.capacity,
          queue := st.queue ++
            [{ item := { source := item.source, timestamp := item.timestamp,
                         payload := [], fieldNames := buf.fieldNames },
               payloadSize := item.payload.length,
               slotIndex := some st.writeIndex }] },
       .enqueued) := by
  have hnbig : ¬ (item.payload.length > buf.options.maxPayloadSize) := by omega
  simp [GlobalBuffer.push, hsd, hroom, hmm, hm, hnbig, writeSlot]

theorem pop_cons_eq (buf : GlobalBuffer) (st : BufferState) (entry : QueueEntry)
    (rest : List QueueEntry) (hq : st.queue = entry :: rest) :
    buf.pop st =
      (match buf.materializeEntry st.mapped entry with
       | some b => ({ st with queue := rest }, .item b)
       | none => ({ st with queue := rest }, .corrupt)) := by
  simp only [GlobalBuffer.pop, hq]
  rcases buf.materializeEntry st.mapped entry with _ | b <;> simp

theorem pop_empty_shutdown_eq (buf : GlobalBuffer) (st : BufferState)
    (hq : st.queue = []) (hsd : st.shutdown = true) :
    buf.pop st = (st, .empty) := by
  simp [GlobalBuffer.pop, hq, hsd]

theorem tryPop_empty_eq (buf : GlobalBuffer) (st : BufferState) (hq : st.queue = []) :
    buf.tryPop st = (st, .empty) := by
  simp [GlobalBuffer.tryPop, hq]

set_option maxHeartbeats 1000000 in
theorem normalizeOptions_eq (input : Options) :
    normalizeOptions input =
      { capacity := if input.capacity = 0 then 1024 else input.capacity,
        memoryMapped := input.memoryMapped,
        backingFile := if input.memoryMapped = true ∧ input.backingFile = ""
          then "global_buffer.mmap" else input.backingFile,
        maxPayloadSize := if input.maxPayloadSize = 0 then 4096 else input.maxPayloadSize,
        fieldNames :=
          { source := if input.fieldNames.source = "" then "source" else input.fieldNames.source,
            timestamp := if input.fieldNames.timestamp = ""
              then "timestamp" else input.fieldNames.timestamp,
            payload := if input.fieldNames.payload = ""
              then "payload" else input.fieldNames.payload } } := by
  obtain ⟨c, mm, bf, mp, fs, ft, fp⟩ := input
  simp only [normalizeOptions]
  by_cases h1 : c = 0 <;> by_cases h2 : mp = 0 <;>
    by_cases h3 : mm = true ∧ bf = "" <;>
    by_cases h4 : fs = "" <;> by_cases h5 : ft = "" <;> by_cases h6 : fp = "" <;>
    simp [h1, h2, h3, h4, h5, h6]

theorem normalizeOptions_capacity_pos (input : Options) :
    0 < (normalizeOptions input).capacity := by
  rw [normalizeOptions_eq]
  by_cases h : input.capacity = 0
  · simp [h]
  · simp only [if_neg h]
    omega

theorem construct_ok_fields (input : Options) (buf : GlobalBuffer)
    (hc : GlobalBuffer.construct input = .ok buf) :
    buf.options = normalizeOptions input ∧
    buf.capacity = buf.options.capacity ∧
    buf.fieldNames = buf.options.fieldNames ∧
    0 < buf.capacity ∧
    (buf.options.memoryMapped = true →
      buf.slotSize = 4 + buf.options.maxPayloadSize ∧
      buf.mappedSize = buf.slotSize * buf.capacity) := by
  simp only [GlobalBuffer.construct] at hc
  split at hc
  · exact absurd hc (by simp)
  · split at hc
    · split at hc
      · exact absurd hc (by simp)
      · split at hc
        · exact absurd hc (by simp)
        · next hcap _ _ _ =>
          injection hc with hc
          subst hc
          exact ⟨rfl, rfl, rfl, normalizeOptions_capacity_pos input, fun _ => ⟨rfl, rfl⟩⟩
    · next hcap hnm =>
      injection hc with hc
      subst hc
      exact ⟨rfl, rfl, rfl, normalizeOptions_capacity_pos input,
        fun hmm => absurd hmm (by simpa using hnm)⟩

/-- C4 counterexample: constructing with capacity 0, persisted mode, an
empty backing-file path and max payload size 0 does NOT fail — the
constructor silently substitutes the defaults (1024, `global_buffer.mmap`,
4096) and succeeds, contradicting the claim that construction fails with a
ConstructionError for these inputs. -/
theorem c4_construction_counterexample :
    GlobalBuffer.construct zeroOptions =
      Except.ok
        { options := { capacity := 1024, memoryMapped := true,
                       backingFile := "global_buffer.mmap", maxPayloadSize := 4096,
                       fieldNames := defaultFieldNames },
          capacity := 1024, fieldNames := defaultFieldNames,
          slotSize := 4100, mappedSize := 4198400 } := by rfl

/-- C4 (amended): construction never rejects a zero capacity, a zero max
payload size, or (in persisted mode) an empty backing-file path; before
the constructor's validity checks run, `normalizeOptions` silently
replaces those values with the defaults 1024, 4096 and
`global_buffer.mmap`, so the checks never fire and construction
succeeds. -/
theorem c4_construction_substitutes_defaults (opts : Options) :
    ∃ buf, GlobalBuffer.construct opts = Except.ok buf ∧
      buf.capacity = (if opts.capacity = 0 then 1024 else opts.capacity) ∧
      buf.options.maxPayloadSize =
        (if opts.maxPayloadSize = 0 then 4096 else opts.maxPayloadSize) ∧
      buf.options.backingFile =
        (if opts.memoryMapped = true ∧ opts.backingFile = ""
         then "global_buffer.mmap" else opts.backingFile) := by
  simp only [GlobalBuffer.construct, normalizeOptions_eq]
  by_cases hcap : opts.capacity = 0 <;> by_cases hmm : opts.memoryMapped = true <;>
    by_cases hbf : opts.backingFile = "" <;> by_cases hmp : opts.maxPayloadSize = 0 <;>
    simp [hcap, hmm, hbf, hmp]

/-- C7: the claim says `stop()` always invokes the cleanup hook exactly
once per start/stop cycle, even when the read loop exited because of an
internal error.  The code disagrees: when `run()` exits by throwing, the
rethrow in `threadMain` escapes the thread entry function, `std::terminate`
ends the process, and the cleanup hook never runs (count stays 0). -/
theorem c7_cleanup_skipped_when_run_throws :
    (StreamingSession.stop (StreamingSession.threadMain
        (StreamingSession.start sessionInit) true)).cleanupCount = 0 ∧
    (StreamingSession.threadMain
        (StreamingSession.start sessionInit) true).processAlive = false := by decide

/-- C8: the claim says a producer read-loop error ends only that
producer's worker and never affects the buffer, other producers or the
consumer.  The code disagrees: a throwing `run()` (e.g. `FileSession::run`
on an unopenable path) makes `threadMain` rethrow out of the `std::thread`
entry function, so `std::terminate` kills the entire process; a read loop
that returns normally leaves the process alive. -/
theorem c8_thrown_run_terminates_process :
    (StreamingSession.threadMain (StreamingSession.start sessionInit) true).processAlive
        = false ∧
    (StreamingSession.threadMain (StreamingSession.start sessionInit) false).processAlive
        = true ∧
    (StreamingSession.threadMain (StreamingSession.start sessionInit) true).running
        = false := by decide

/-- C9: with quoting enabled, a record from source `dev0` whose timestamp
formats to `2024-01-01` and whose payload is the bytes 0x41 0x42 produces
the line `"2024-01-01","dev0","41 42"`, and a source `a"b` renders as the
column `"a""b"` (embedded quotes doubled). -/
theorem c9_csv_format_literal_cases :
    CsvWriter.formatRecord c9Settings (fun _ => "2024-01-01")
      { source := "dev0", timestamp := 0, payload := [65, 66],
        fieldNames := defaultFieldNames } = "\"2024-01-01\",\"dev0\",\"41 42\"" ∧
    renderColumn c9Settings "a\"b" = "\"a\"\"b\"" := by decide

/-- `push` either leaves the state unchanged (waiting, shutdown drop, or
a thrown error) or it reports a successful enqueue. -/
theorem push_state_cases (buf : GlobalBuffer) (st : BufferState) (item : BufferItem) :
    (buf.push st item).1 = st ∨ (buf.push st item).2 = .enqueued := by
  simp only [GlobalBuffer.push]
  split
  · exact Or.inl rfl
  · split
    · exact Or.inl rfl
    · split
      · split
        · exact Or.inl rfl
        · split
          · exact Or.inl rfl
          · exact Or.inr rfl
      · exact Or.inr rfl

/-- An enqueue happens only with strict room: the resulting queue never
exceeds the configured capacity. -/
theorem push_queue_length_le (buf : GlobalBuffer) (st : BufferState) (item : BufferItem)
    (h : st.queue.length ≤ buf.capacity) :
    ((buf.push st item).1).queue.length ≤ buf.capacity := by
  simp only [GlobalBuffer.push]
  split
  · exact h
  · next hguard =>
    split
    · exact h
    · next hsd =>
      have hroom : st.queue.length < buf.capacity := by
        rcases not_not.mp hguard with h1 | h1
        · exact absurd h1 hsd
        · exact h1
      split
      · split
        · exact h
        · split
          · exact h
          · simpa using hroom
      · simpa using hroom

theorem pop_queue_length_le (buf : GlobalBuffer) (st : BufferState) :
    ((buf.pop st).1).queue.length ≤ st.queue.length := by
  simp only [GlobalBuffer.pop]
  split
  · exact Nat.le_refl _
  · split
    · exact Nat.le_refl _
    · next entry rest hq =>
      rcases hmat : buf.materializeEntry st.mapped entry with _ | b <;>
        simp [hmat, hq]

theorem tryPop_queue_length_le (buf : GlobalBuffer) (st : BufferState) :
    ((buf.tryPop st).1).queue.length ≤ st.queue.length := by
  simp only [GlobalBuffer.tryPop]
  split
  · exact Nat.le_refl _
  · next entry rest hq =>
    rcases hmat : buf.materializeEntry st.mapped entry with _ | b <;>
      simp [hmat, hq]

theorem applyOp_queue_length_le (buf : GlobalBuffer) (st : BufferState) (op : BufferOp)
    (h : st.queue.length ≤ buf.capacity) :
    (applyOp buf st op).queue.length ≤ buf.capacity := by
  cases op with
  | push item => exact push_queue_length_le buf st item h
  | pop => exact Nat.le_trans (pop_queue_length_le buf st) h
  | tryPop => exact Nat.le_trans (tryPop_queue_length_le buf st) h
  | shutdown => exact h

theorem runOps_queue_length_le (buf : GlobalBuffer) (ops : List BufferOp) :
    ∀ st : BufferState, st.queue.length ≤ buf.capacity →
      (runOps buf st ops).queue.length ≤ buf.capacity := by
  induction ops with
  | nil => exact fun st h => h
  | cons op rest ih =>
    intro st h
    exact ih (applyOp buf st op) (applyOp_queue_length_le buf st op h)

/-- C1: for every state reachable from a freshly constructed buffer by any
sequence of `push` / `pop` / `tryPop` / `shutdown` calls, the number of
queued entries never exceeds the configured capacity; `push` appends only
when the queue length is strictly below capacity (otherwise it waits or
drops), and no other operation grows the queue. -/
theorem c1_bounded_capacity (opts : Options) (buf : GlobalBuffer) (ops : List BufferOp)
    (hc : GlobalBuffer.construct opts = Except.ok buf) :
    (runOps buf (initState buf) ops).queue.length ≤ buf.capacity := by
  have h0 : (initState buf).queue.length ≤ buf.capacity := by
    simp [initState]
  exact runOps_queue_length_le buf ops (initState buf) h0

/-- C1 witness: a concrete constructed buffer and call sequence (three
pushes against capacity 2, then a pop) respecting the bound. -/
theorem c1_bounded_capacity_witness :
    GlobalBuffer.construct plainOptions = Except.ok plainBuffer ∧
    (runOps plainBuffer (initState plainBuffer)
      [BufferOp.push sampleItem, BufferOp.push sampleItem, BufferOp.push sampleItem,
       BufferOp.pop]).queue.length ≤ plainBuffer.capacity :=
  ⟨rfl, c1_bounded_capacity plainOptions plainBuffer _ rfl⟩

theorem wellFormed_cons (buf : GlobalBuffer) (st : BufferState) (entry : QueueEntry)
    (rest : List QueueEntry) (hq : st.queue = entry :: rest)
    (hwf : wellFormed buf st = true) :
    (buf.materializeEntry st.mapped entry).isSome = true ∧
    wellFormed buf { st with queue := rest } = true := by
  rw [wellFormed, hq] at hwf
  simp only [List.all_cons, Bool.and_eq_true] at hwf
  exact ⟨hwf.1, hwf.2⟩

/-- With shutdown set and every queued entry readable, popping once per
queued entry returns an item every time and leaves the queue empty. -/
theorem popN_drains (buf : GlobalBuffer) :
    ∀ (q : List QueueEntry) (st : BufferState), st.queue = q → st.shutdown = true →
      wellFormed buf st = true →
      (popN buf st q.length).1 = { st with queue := [] } ∧
      (popN buf st q.length).2.all PopResult.isItem = true := by
  intro q
  induction q with
  | nil =>
    intro st hq _ _
    obtain ⟨q0, sd, wi, mp⟩ := st
    simp only at hq
    subst hq
    exact ⟨rfl, rfl⟩
  | cons entry rest ih =>
    intro st hq hsd hwf
    obtain ⟨hsome, hwf'⟩ := wellFormed_cons buf st entry rest hq hwf
    obtain ⟨b, hb⟩ := Option.isSome_iff_exists.mp hsome
    have hpop : buf.pop st = ({ st with queue := rest }, .item b) := by
      rw [pop_cons_eq buf st entry rest hq, hb]
    obtain ⟨ih1, ih2⟩ := ih { st with queue := rest } rfl hsd hwf'
    constructor
    · show (popN buf (buf.pop st).1 rest.length).1 = _
      rw [hpop]
      exact ih1
    · show ((buf.pop st).2.isItem && (popN buf (buf.pop st).1 rest.length).2.all _) = true
      rw [hpop]
      simpa [PopResult.isItem] using ih2

/-- C2: after `shutdown()` is invoked with K readable entries queued,
any `push` returns without enqueuing and without changing the state
(a no-op, not an error), the next K `pop` calls each return an item,
and from the drained state `pop` and `tryPop` report no item while
leaving the state unchanged (hence forever after). -/
theorem c2_drain_on_shutdown (buf : GlobalBuffer) (st : BufferState) (K : Nat)
    (item : BufferItem) (hwf : wellFormed buf st = true) (hK : st.queue.length = K) :
    buf.push (GlobalBuffer.shutdownCall st) item
        = (GlobalBuffer.shutdownCall st, .droppedShutdown) ∧
    (popN buf (GlobalBuffer.shutdownCall st) K).2.all PopResult.isItem = true ∧
    (popN buf (GlobalBuffer.shutdownCall st) K).1.queue = [] ∧
    buf.pop (popN buf (GlobalBuffer.shutdownCall st) K).1
        = ((popN buf (GlobalBuffer.shutdownCall st) K).1, .empty) ∧
    buf.tryPop (popN buf (GlobalBuffer.shutdownCall st) K).1
        = ((popN buf (GlobalBuffer.shutdownCall st) K).1, .empty) := by
  subst hK
  have hwf1 : wellFormed buf (GlobalBuffer.shutdownCall st) = true := by
    simpa [wellFormed, GlobalBuffer.shutdownCall] using hwf
  obtain ⟨h1, h2⟩ :=
    popN_drains buf st.queue (GlobalBuffer.shutdownCall st) rfl rfl hwf1
  have hlen : st.queue.length = (GlobalBuffer.shutdownCall st).queue.length := rfl
  rw [hlen] at h1 h2 ⊢
  refine ⟨push_shutdown_eq buf _ item rfl, h2, ?_, ?_, ?_⟩
  · rw [h1]
  · rw [h1]
    exact pop_empty_shutdown_eq buf _ rfl rfl
  · rw [h1]
    exact tryPop_empty_eq buf _ rfl

/-- C2 witness: the drain property evaluated on a concrete buffer holding
two entries at shutdown time. -/
theorem c2_drain_on_shutdown_witness :
    wellFormed plainBuffer plainState = true ∧ plainState.queue.length = 2 ∧
    ((popN plainBuffer (GlobalBuffer.shutdownCall plainState) 2).2.all PopResult.isItem
        = true ∧
     (popN plainBuffer (GlobalBuffer.shutdownCall plainState) 2).1.queue = []) := by
  have h := c2_drain_on_shutdown plainBuffer plainState 2 sampleItem (by decide) (by decide)
  exact ⟨by decide, by decide, h.2.1, h.2.2.1⟩

/-- C5: in persisted mode, pushing a payload strictly larger than the
configured maximum is rejected with the thrown size error (surfaced to the
caller, not a silent drop) and the state, in particular the queue, is
unchanged. -/
theorem c5_push_oversized_rejected (buf : GlobalBuffer) (st : BufferState)
    (item : BufferItem) (m : Bytes)
    (hmm : buf.options.memoryMapped = true) (hm : st.mapped = some m)
    (hsd : st.shutdown = false) (hroom : st.queue.length < buf.capacity)
    (hbig : buf.options.maxPayloadSize < item.payload.length) :
    buf.push st item = (st, .errTooLarge) := by
  simp [GlobalBuffer.push, hsd, hroom, hmm, hm, hbig]

/-- C5 witness: the oversized push evaluated on a concrete persisted
buffer. -/
theorem c5_push_oversized_rejected_witness :
    mappedBuffer.options.memoryMapped = true ∧
    (initState mappedBuffer).mapped = some (List.replicate 16 0) ∧
    (initState mappedBuffer).shutdown = false ∧
    (initState mappedBuffer).queue.length < mappedBuffer.capacity ∧
    mappedBuffer.options.maxPayloadSize < oversizedItem.payload.length ∧
    mappedBuffer.push (initState mappedBuffer) oversizedItem
      = (initState mappedBuffer, .errTooLarge) := by
  refine ⟨by decide, by decide, by decide, by decide, by decide, ?_⟩
  exact c5_push_oversized_rejected mappedBuffer (initState mappedBuffer) oversizedItem
    (List.replicate 16 0) (by decide) (by decide) (by decide) (by decide) (by decide)

/-- C10: whenever `push` fails with one of its two persisted-mode errors
(mapping not initialized, payload too large), the buffer state — queue
contents, write cursor and mapped region alike — is exactly what it was
before the call. -/
theorem c10_push_error_leaves_state_unchanged (buf : GlobalBuffer) (st : BufferState)
    (item : BufferItem)
    (herr : (buf.push st item).2 = .errNotMapped ∨ (buf.push st item).2 = .errTooLarge) :
    (buf.push st item).1 = st := by
  rcases push_state_cases buf st item with h | h
  · exact h
  · rcases herr with he | he <;> rw [h] at he <;> exact absurd he (by simp)

/-- C10 witness: a concrete erroring push (persisted mode with an
uninitialized mapping) leaves the state unchanged. -/
theorem c10_push_error_leaves_state_unchanged_witness :
    ((mappedBuffer.push unmappedState sampleItem).2 = PushResult.errNotMapped ∨
     (mappedBuffer.push unmappedState sampleItem).2 = PushResult.errTooLarge) ∧
    (mappedBuffer.push unmappedState sampleItem).1 = unmappedState := by
  have h := c10_push_error_leaves_state_unchanged mappedBuffer unmappedState sampleItem
    (Or.inl (by decide))
  exact ⟨Or.inl (by decide), h⟩

/-- C6: in persisted mode `pop` dequeues the front entry, reads the
4-byte stored length back from the entry's recorded slot and compares it
with the length recorded at push time: on a mismatch it raises the fatal
corruption error instead of returning an item (and does not retry); on a
match it returns the entry's record with the payload of the recorded
length read from the slot. -/
theorem c6_pop_verifies_stored_length (buf : GlobalBuffer) (st : BufferState)
    (entry : QueueEntry) (rest : List QueueEntry) (i : Nat) (m : Bytes)
    (hmm : buf.options.memoryMapped = true) (hq : st.queue = entry :: rest)
    (hslot : entry.slotIndex = some i) (hm : st.mapped = some m) :
    (decodeU32 (readBytes m (i * buf.slotSize) 4) ≠ entry.payloadSize →
      buf.pop st = ({ st with queue := rest }, .corrupt)) ∧
    (decodeU32 (readBytes m (i * buf.slotSize) 4) = entry.payloadSize →
      buf.pop st = ({ st with queue := rest },
        .item { entry.item with
                  payload := readBytes m (i * buf.slotSize + 4) entry.payloadSize })) := by
  rw [pop_cons_eq buf st entry rest hq]
  constructor
  · intro hne
    have hmat : buf.materializeEntry st.mapped entry = none := by
      simp [GlobalBuffer.materializeEntry, hmm, hslot, hm, hne]
    rw [hmat]
  · intro heq
    have hmat : buf.materializeEntry st.mapped entry =
        some { entry.item with
                 payload := readBytes m (i * buf.slotSize + 4) entry.payloadSize } := by
      simp [GlobalBuffer.materializeEntry, hmm, hslot, hm, heq]
    rw [hmat]

/-- C6 witness: the corruption check evaluated on a concrete mismatching
slot (stored length 5, recorded length 3) — `pop` reports corruption. -/
theorem c6_pop_verifies_stored_length_witness :
    mappedBuffer.options.memoryMapped = true ∧
    corruptState.queue = [corruptEntry] ∧
    corruptEntry.slotIndex = some 0 ∧
    corruptState.mapped = some corruptRegion ∧
    decodeU32 (readBytes corruptRegion (0 * mappedBuffer.slotSize) 4)
      ≠ corruptEntry.payloadSize ∧
    mappedBuffer.pop corruptState = ({ corruptState with queue := [] }, .corrupt) := by
  have h := c6_pop_verifies_stored_length mappedBuffer corruptState corruptEntry [] 0
    corruptRegion (by decide) (by decide) (by decide) (by decide)
  exact ⟨by decide, by decide, by decide, by decide, by decide, h.1 (by decide)⟩

/-- C3 (amended): in persisted mode, for every payload whose size is at
most the configured maximum AND below 2^32 (the range of the 4-byte
length prefix), pushing the payload into an idle buffer and popping it
returns a byte-for-byte identical payload, at every write-cursor position
(so in particular after the cursor has wrapped modulo capacity) and for
every prior content of the mapped region.  Payload sizes of 2^32 or more
are excluded: there the stored 32-bit length truncates and `pop` reports
corruption instead (see the counterexample). -/
theorem c3_persisted_roundtrip (opts : Options) (buf : GlobalBuffer) (st : BufferState)
    (m : Bytes) (item : BufferItem)
    (hc : GlobalBuffer.construct opts = Except.ok buf)
    (hmm : buf.options.memoryMapped = true)
    (hm : st.mapped = some m)
    (hlen : m.length = buf.mappedSize)
    (hwi : st.writeIndex < buf.capacity)
    (hq : st.queue = [])
    (hsd : st.shutdown = false)
    (hfit : item.payload.length ≤ buf.options.maxPayloadSize)
    (h32 : item.payload.length < 2 ^ 32) :
    (buf.push st item).2 = .enqueued ∧
    (buf.pop (buf.push st item).1).2 =
      .item { source := item.source, timestamp := item.timestamp,
              payload := item.payload, fieldNames := buf.fieldNames } := by
  obtain ⟨-, -, -, hcappos, hmmf⟩ := construct_ok_fields opts buf hc
  obtain ⟨hslot, hms⟩ := hmmf hmm
  have hroom : st.queue.length < buf.capacity := by
    rw [hq]
    simpa using hcappos
  have hpush := push_mapped_eq buf st item m hmm hm hsd hroom hfit
  have hbound : st.writeIndex * buf.slotSize + 4 + item.payload.length ≤ m.length := by
    have h1 : st.writeIndex * buf.slotSize + buf.slotSize
        = (st.writeIndex + 1) * buf.slotSize := by ring
    have h2 : (st.writeIndex + 1) * buf.slotSize ≤ buf.capacity * buf.slotSize :=
      Nat.mul_le_mul_right _ hwi
    have h3 : m.length = buf.slotSize * buf.capacity := by rw [hlen, hms]
    have h4 : buf.slotSize * buf.capacity = buf.capacity * buf.slotSize :=
      Nat.mul_comm _ _
    omega
  rw [hpush]
  refine ⟨rfl, ?_⟩
  rw [pop_cons_eq buf _
    { item := { source := item.source, timestamp := item.timestamp,
                payload := [], fieldNames := buf.fieldNames },
      payloadSize := item.payload.length, slotIndex := some st.writeIndex }
    [] (by simp [hq])]
  have hmat : buf.materializeEntry (some (writeSlot m (st.writeIndex * buf.slotSize)
        item.payload))
      { item := { source := item.source, timestamp := item.timestamp,
                  payload := [], fieldNames := buf.fieldNames },
        payloadSize := item.payload.length, slotIndex := some st.writeIndex } =
      some { source := item.source, timestamp := item.timestamp,
             payload := item.payload, fieldNames := buf.fieldNames } := by
    simp only [GlobalBuffer.materializeEntry, hmm]
    rw [readSlot_len m item.payload _ hbound, decodeU32_encodeU32,
      Nat.mod_eq_of_lt (Nat.lt_of_lt_of_le h32 (Nat.le_refl _)),
      Nat.mod_eq_of_lt h32]
    simp only [ne_eq, not_true_eq_false, if_false, ite_false]
    rw [readSlot_payload m item.payload _ hbound]
    simp
  rw [hmat]

/-- C3 witness: the round trip evaluated on a concrete persisted buffer
with a non-zero write cursor. -/
theorem c3_persisted_roundtrip_witness :
    GlobalBuffer.construct mappedOptions = Except.ok mappedBuffer ∧
    mappedBuffer.options.memoryMapped = true ∧
    wrappedState.mapped = some (List.replicate 16 0) ∧
    (List.replicate 16 0 : Bytes).length = mappedBuffer.mappedSize ∧
    wrappedState.writeIndex < mappedBuffer.capacity ∧
    wrappedState.queue = [] ∧
    wrappedState.shutdown = false ∧
    sampleItem.payload.length ≤ mappedBuffer.options.maxPayloadSize ∧
    sampleItem.payload.length < 2 ^ 32 ∧
    ((mappedBuffer.push wrappedState sampleItem).2 = .enqueued ∧
     (mappedBuffer.pop (mappedBuffer.push wrappedState sampleItem).1).2 =
       .item { source := sampleItem.source, timestamp := sampleItem.timestamp,
               payload := sampleItem.payload, fieldNames := mappedBuffer.fieldNames }) := by
  have h := c3_persisted_roundtrip mappedOptions mappedBuffer wrappedState
    (List.replicate 16 0) sampleItem rfl (by decide) (by decide) (by decide) (by decide)
    (by decide) (by decide) (by decide) (by decide)
  exact ⟨rfl, by decide, by decide, by decide, by decide, by decide, by decide,
    by decide, by decide, h⟩

/-- Dequeue-then-corrupt: when the front entry fails to materialize, the
`pop` call reports the corruption error. -/
theorem pop_snd_corrupt (buf : GlobalBuffer) (st : BufferState) (entry : QueueEntry)
    (rest : List QueueEntry) (hq : st.queue = entry :: rest)
    (hmat : buf.materializeEntry st.mapped entry = none) :
    (buf.pop st).2 = PopResult.corrupt := by
  rw [pop_cons_eq buf st entry rest hq, hmat]

theorem hugeItem_length : hugeItem.payload.length = 4294967296 :=
  List.length_replicate 4294967296 0

theorem hugeRegion_length : hugeRegion.length = 4294967300 :=
  List.length_replicate 4294967300 0

theorem hugeBuffer_construct :
    GlobalBuffer.construct hugeOptions = Except.ok hugeBuffer := by
  rfl

theorem hugeBuffer_initState_mapped :
    (initState hugeBuffer).mapped = some hugeRegion := by
  have hms : hugeBuffer.mappedSize = 4294967300 := by norm_num [hugeBuffer]
  simp only [initState, show hugeBuffer.options.memoryMapped = true from rfl, if_true,
    hms, hugeRegion]

theorem hugeItem_fits : hugeItem.payload.length ≤ hugeBuffer.options.maxPayloadSize := by
  rw [hugeItem_length]
  exact Nat.le_refl 4294967296

/-- C3 counterexample: the claim as stated fails at a payload of size
2^32 ≤ maxPayloadSize.  `push` accepts it but stores the
`static_cast<uint32_t>`-truncated length 0, so the immediately following
`pop` finds stored length 0 ≠ recorded length 2^32 and raises the fatal
corruption error instead of returning the byte-identical payload. -/
theorem c3_roundtrip_counterexample :
    GlobalBuffer.construct hugeOptions = Except.ok hugeBuffer ∧
    hugeItem.payload.length ≤ hugeBuffer.options.maxPayloadSize ∧
    (hugeBuffer.push (initState hugeBuffer) hugeItem).2 = .enqueued ∧
    (hugeBuffer.pop (hugeBuffer.push (initState hugeBuffer) hugeItem).1).2
      = PopResult.corrupt := by
  have hpush := push_mapped_eq hugeBuffer (initState hugeBuffer) hugeItem hugeRegion rfl
    hugeBuffer_initState_mapped rfl (by decide) hugeItem_fits
  have hbound : (initState hugeBuffer).writeIndex * hugeBuffer.slotSize + 4
      + hugeItem.payload.length ≤ hugeRegion.length := by
    have h1 : (initState hugeBuffer).writeIndex = 0 := rfl
    rw [hugeItem_length, h1, hugeRegion_length]
    norm_num
  have hmat : hugeBuffer.materializeEntry
      (some (writeSlot hugeRegion
        ((initState hugeBuffer).writeIndex * hugeBuffer.slotSize) hugeItem.payload))
      { item := { source := hugeItem.source, timestamp := hugeItem.timestamp,
                  payload := [], fieldNames := hugeBuffer.fieldNames },
        payloadSize := hugeItem.payload.length,
        slotIndex := some (initState hugeBuffer).writeIndex } = none := by
    simp only [GlobalBuffer.materializeEntry,
      show hugeBuffer.options.memoryMapped = true from rfl]
    rw [readSlot_len _ _ _ hbound, decodeU32_encodeU32, hugeItem_length]
    norm_num
  refine ⟨hugeBuffer_construct, hugeItem_fits, by rw [hpush], ?_⟩
  exact pop_snd_corrupt hugeBuffer _
    { item := { source := hugeItem.source, timestamp := hugeItem.timestamp,
                payload := [], fieldNames := hugeBuffer.fieldNames },
      payloadSize := hugeItem.payload.length,
      slotIndex := some (initState hugeBuffer).writeIndex }
    [] (by rw [hpush]; rfl) (by rw [hpush]; exact hmat)
